import Mathlib

/-!
# OMR evaluator: verification of the evaluation & analytics engine spec

A shallow embedding of the OMR (optical mark recognition) exam evaluator.
The React frontend (difficulty tags, pass/fail labels, answer-key display)
is embedded directly from the source under `src/frontend` and
`src/unnamed/part_000..part_002`.  The backend evaluation engine
(ScoringEngine, SubmissionStore, StatisticsAggregator) is not part of the
sources available here, so those components are modelled from the
specification (each such definition says so in its doc comment).

Percentages and marks are modelled as rationals (`ℚ`), which captures the
exact decimal arithmetic of the formulas in the spec; integral fields stay
`Nat`.
-/

namespace OMR

/-! ## Frontend: difficulty classification (ExamStatistics page)

`src/unnamed/part_001`, line 292:
`difficulty: accuracy > 75 ? 'Easy' : accuracy > 50 ? 'Medium' : 'Hard'`. -/

/-- Difficulty tag computed for each question bar in `questionAccuracyData`
(`src/unnamed/part_001`, ExamStatistics component). Note the strict
comparisons: this is the JavaScript conditional chain verbatim. -/
def difficulty (accuracy : ℚ) : String :=
  if accuracy > 75 then "Easy"
  else if accuracy > 50 then "Medium"
  else "Hard"

/-! ## Frontend: pass/fail labels on the two presentation surfaces -/

/-- Pass/fail label shown on the student result page
(`src/unnamed/part_002`, ViewResult, lines 149-150):
`result.percentage >= 50 ? 'PASS' : 'FAIL'`. -/
def viewResultOutcome (percentage : ℚ) : String :=
  if percentage ≥ 50 then "PASS" else "FAIL"

/-- Badge text shown on the teacher dashboard
(`src/frontend/src/pages/TeacherDashboard.jsx`, lines 418-420):
`percentage >= 90 ? 'Excellent' : >= 75 ? 'Good' : >= 40 ? 'Pass' : 'Fail'`
(emoji prefixes of the JSX strings omitted). -/
def teacherBadge (percentage : ℚ) : String :=
  if percentage ≥ 90 then "Excellent"
  else if percentage ≥ 75 then "Good"
  else if percentage ≥ 40 then "Pass"
  else "Fail"

/-- Whether the result page labels the percentage as passing. -/
def viewResultIsPass (percentage : ℚ) : Bool :=
  viewResultOutcome percentage == "PASS"

/-- Whether the teacher dashboard badge is a passing badge
(anything other than the "Fail" badge). -/
def teacherIsPass (percentage : ℚ) : Bool :=
  teacherBadge percentage != "Fail"

/-! ## Frontend: ViewExam answer-key display

`src/unnamed/part_001`, ViewExam component, lines 62 and 157-184. -/

/-- The fixed choice list of the ViewExam answer-key display
(`src/unnamed/part_001`, line 62): `const choices = ['A','B','C','D','E']`. -/
def viewExamChoices : List String := ["A", "B", "C", "D", "E"]

/-- The exam fields the ViewExam answer-key display reads.  `answer_key`
maps a question number to the stored correct choice string. -/
structure ExamView where
  total_questions : Nat
  number_of_choices : Nat
  answer_key : Nat → String

/-- One rendered bubble row for a question: each choice paired with whether
its bubble is highlighted (`correctAnswer === choice`,
`src/unnamed/part_001`, lines 168-179). -/
def bubbleRow (correctAnswer : String) : List (String × Bool) :=
  viewExamChoices.map (fun choice => (choice, correctAnswer == choice))

/-- The whole answer-key grid rendered by ViewExam
(`src/unnamed/part_001`, lines 158-183): one bubble row per question
`1..total_questions`. -/
def answerKeyDisplay (exam : ExamView) : List (List (String × Bool)) :=
  (List.range exam.total_questions).map (fun i => bubbleRow (exam.answer_key (i + 1)))

/-! ## ScoringEngine (modelled from the spec)

The backend evaluation engine is not among the available sources (only its
frontend callers are), so the ScoringEngine is modelled from §3 and §4.1 of
the specification. -/

/-- Modelled from the spec: per-question outcome tag of a ScoreResult,
one of correct / incorrect / unanswered (§3). -/
inductive Outcome where
  | correct
  | incorrect
  | unanswered
deriving DecidableEq

/-- Modelled from the spec: one entry of a DetectedAnswerMap — a detected
choice (an ordinal in the bounded choice alphabet), a blank (`None`), or a
detector-flagged ambiguous/multi-mark entry, which is treated as
unanswered for scoring (§3). -/
inductive DetectedEntry where
  | answered (choice : Nat)
  | blank
  | ambiguous
deriving DecidableEq

/-- Modelled from the spec: the immutable per-exam AnswerKey (§3) together
with the exam's `maxMarks` needed by the scoring formula (§4.1).  Choices
are ordinals of the bounded alphabet; `mapping` sends each question in
`1..totalQuestions` to its correct choice. -/
structure AnswerKey where
  examId : String
  totalQuestions : Nat
  numChoices : Nat
  mapping : Nat → Nat
  maxMarks : Nat

/-- The question numbers `1..totalQuestions` of an exam. -/
def questionList (key : AnswerKey) : List Nat :=
  (List.range key.totalQuestions).map (fun i => i + 1)

/-- Modelled from the spec (§4.1): outcome of one question — correct when
the detected choice equals the key's choice, unanswered on blank or
ambiguous, incorrect otherwise. -/
def outcomeAt (key : AnswerKey) (detected : Nat → DetectedEntry) (q : Nat) : Outcome :=
  match detected q with
  | .answered c => if c = key.mapping q then .correct else .incorrect
  | .blank => .unanswered
  | .ambiguous => .unanswered

/-- The outcome tags of all questions, in question order. -/
def scoreOutcomes (key : AnswerKey) (detected : Nat → DetectedEntry) : List Outcome :=
  (questionList key).map (outcomeAt key detected)

/-- Round a rational to two decimal places using round-half-up (§4.1). -/
def roundHalfUp2 (x : ℚ) : ℚ :=
  (⌊x * 100 + 1 / 2⌋ : ℤ) / 100

/-- Modelled from the spec (§4.1): uniform marks per question,
`maxMarks / N`. -/
def perQuestionMarks (key : AnswerKey) : ℚ :=
  (key.maxMarks : ℚ) / (key.totalQuestions : ℚ)

/-- Number of correctly answered questions. -/
def correctCountOf (key : AnswerKey) (detected : Nat → DetectedEntry) : Nat :=
  (scoreOutcomes key detected).countP (fun o => decide (o = .correct))

/-- Number of incorrectly answered questions. -/
def incorrectCountOf (key : AnswerKey) (detected : Nat → DetectedEntry) : Nat :=
  (scoreOutcomes key detected).countP (fun o => decide (o = .incorrect))

/-- Number of unanswered (blank or ambiguous) questions. -/
def unansweredCountOf (key : AnswerKey) (detected : Nat → DetectedEntry) : Nat :=
  (scoreOutcomes key detected).countP (fun o => decide (o = .unanswered))

/-- Modelled from the spec (§4.1): `rawScore = correctCount *
perQuestionMarks`, rounded to two decimals with round-half-up. -/
def rawScoreOf (key : AnswerKey) (detected : Nat → DetectedEntry) : ℚ :=
  roundHalfUp2 ((correctCountOf key detected : ℚ) * perQuestionMarks key)

/-- Modelled from the spec (§4.1): `percentage = rawScore / maxMarks * 100`. -/
def percentageOf (key : AnswerKey) (detected : Nat → DetectedEntry) : ℚ :=
  rawScoreOf key detected / (key.maxMarks : ℚ) * 100

/-- Modelled from the spec (§3): the immutable ScoreResult produced by the
ScoringEngine (`createdAt` omitted: timestamps are outside the shallow
embedding, and the spec excludes them from determinism). -/
structure ScoreResult where
  examId : String
  rollNumber : String
  outcomes : List Outcome
  correctCount : Nat
  incorrectCount : Nat
  unansweredCount : Nat
  rawScore : ℚ
  maxMarks : Nat
  percentage : ℚ
deriving DecidableEq

/-- Modelled from the spec (§4.1): the pure scoring function
`score(key, detected) -> ScoreResult`. -/
def score (key : AnswerKey) (roll : String) (detected : Nat → DetectedEntry) : ScoreResult :=
  { examId := key.examId
    rollNumber := roll
    outcomes := scoreOutcomes key detected
    correctCount := correctCountOf key detected
    incorrectCount := incorrectCountOf key detected
    unansweredCount := unansweredCountOf key detected
    rawScore := rawScoreOf key detected
    maxMarks := key.maxMarks
    percentage := percentageOf key detected }

/-! ## SubmissionStore (modelled from the spec)

The backend store is not among the available sources (only its frontend
callers, e.g. `handleDeleteSubmission` and the resubmission flow in
`src/frontend/src/pages/UploadOMR.jsx`, are), so the SubmissionStore state
machine is modelled from §4.2 of the specification. -/

/-- Modelled from the spec (§4.2): lifecycle state of one submission
record.  `Absent` is represented by the record not existing. -/
inductive RecordState where
  | active
  | replaced
  | deleted
deriving DecidableEq

/-- Modelled from the spec (§3): a SubmissionRecord wraps one ScoreResult
with a lifecycle state, keyed by (examId, rollNumber). -/
structure SubRecord where
  examId : String
  rollNumber : String
  result : ScoreResult
  state : RecordState
deriving DecidableEq

/-- Modelled from the spec (§4.2, §6): the submission store retains every
record — the current Active one plus the non-destructive Replaced/Deleted
history. -/
structure Store where
  records : List SubRecord
deriving DecidableEq

/-- Modelled from the spec (§7): error taxonomy of the store transitions. -/
inductive StoreError where
  | conflict
  | notFound
deriving DecidableEq

/-- Whether a record is the Active record for (examId, rollNumber). -/
def isActiveFor (e r : String) (rec : SubRecord) : Bool :=
  decide (rec.examId = e ∧ rec.rollNumber = r ∧ rec.state = RecordState.active)

/-- Transition a record out of Active into `newState` when it is the
Active record for (e, r); leave every other record untouched. -/
def retire (newState : RecordState) (e r : String) (rec : SubRecord) : SubRecord :=
  if isActiveFor e r rec then { rec with state := newState } else rec

/-- A fresh Active record for (e, r) wrapping a ScoreResult. -/
def mkRecord (e r : String) (res : ScoreResult) : SubRecord :=
  { examId := e, rollNumber := r, result := res, state := .active }

/-- Modelled from the spec (§4.2): `getActive(examId, rollNumber)` returns
the current Active record or None. -/
def getActive (s : Store) (e r : String) : Option SubRecord :=
  s.records.find? (isActiveFor e r)

/-- Modelled from the spec (§4.2): `create(examId, rollNumber, scoreResult,
allowResubmission)`.  No Active record → install a new Active record.
Active record and resubmission disabled → ConflictError.  Active record and
resubmission enabled → transition the existing Active record to Replaced
and install the new record as Active (one atomic step of the state
machine). -/
def create (s : Store) (e r : String) (res : ScoreResult) (allowResubmission : Bool) :
    Except StoreError Store :=
  match getActive s e r with
  | none => .ok ⟨mkRecord e r res :: s.records⟩
  | some _ =>
    if allowResubmission then
      .ok ⟨mkRecord e r res :: s.records.map (retire .replaced e r)⟩
    else
      .error .conflict

/-- Modelled from the spec (§4.2): `delete(examId, rollNumber)` transitions
Active to Deleted, and fails with NotFoundError when no Active record
exists. -/
def deleteSubmission (s : Store) (e r : String) : Except StoreError Store :=
  match getActive s e r with
  | none => .error .notFound
  | some _ => .ok ⟨s.records.map (retire .deleted e r)⟩

/-- Run `create` as a state transition: a failed call reports its error and
leaves the store unchanged (§5: failures are all-or-nothing). -/
def applyCreate (s : Store) (e r : String) (res : ScoreResult) (allowResubmission : Bool) :
    Store × Option StoreError :=
  match create s e r res allowResubmission with
  | .ok s' => (s', none)
  | .error err => (s, some err)

/-- Run `deleteSubmission` as a state transition: a failed call reports its
error and leaves the store unchanged. -/
def applyDelete (s : Store) (e r : String) : Store × Option StoreError :=
  match deleteSubmission s e r with
  | .ok s' => (s', none)
  | .error err => (s, some err)

/-- The number of Active records for (e, r) in the store. -/
def countActive (s : Store) (e r : String) : Nat :=
  s.records.countP (isActiveFor e r)

/-- The audit history of (e, r): every retained record for the key,
whatever its state. -/
def historyFor (s : Store) (e r : String) : List SubRecord :=
  s.records.filter (fun rec => rec.examId == e && rec.rollNumber == r)

/-- The stores reachable from the empty store by successful `create` and
`deleteSubmission` transitions (failed calls leave the store unchanged, so
they induce no step). -/
inductive Reachable : Store → Prop where
  | empty : Reachable ⟨[]⟩
  | step_create (s s' : Store) (e r : String) (res : ScoreResult) (allowResubmission : Bool) :
      Reachable s → create s e r res allowResubmission = .ok s' → Reachable s'
  | step_delete (s s' : Store) (e r : String) :
      Reachable s → deleteSubmission s e r = .ok s' → Reachable s'

/-! ## StatisticsAggregator (modelled from the spec)

The backend aggregator is not among the available sources (only its
frontend consumer, the ExamStatistics page in `src/unnamed/part_001`, is),
so it is modelled from §4.3 of the specification. -/

/-- Modelled from the spec (§3): the derived ExamStatistics read-model. -/
structure ExamStatistics where
  examId : String
  totalActiveSubmissions : Nat
  perQuestionAccuracy : Nat → ℚ
  averageScore : ℚ
  highestScore : ℚ
  lowestScore : ℚ
  passRate : ℚ

/-- Modelled from the spec (§4.3, §7): aggregation either produces
statistics or the distinguished `NoSubmissions` result — not an error. -/
inductive AggregateResult where
  | noSubmissions
  | stats (s : ExamStatistics)

/-- The Active ScoreResults of an exam: the live set the aggregator scans
(§4.3). -/
def activeResults (s : Store) (e : String) : List ScoreResult :=
  (s.records.filter (fun rec => rec.examId == e && rec.state == RecordState.active)).map
    (fun rec => rec.result)

/-- Modelled from the spec (§4.3): fold a non-empty list of Active
ScoreResults into ExamStatistics; an empty list yields the explicit
`NoSubmissions` result before any division is formed. -/
def aggregateList (e : String) (results : List ScoreResult) (passThreshold : ℚ) :
    AggregateResult :=
  match results with
  | [] => .noSubmissions
  | r :: rs =>
    .stats
      { examId := e
        totalActiveSubmissions := rs.length + 1
        perQuestionAccuracy := fun q =>
          ((r :: rs).countP
            (fun sr => decide (sr.outcomes.getD (q - 1) .unanswered = .correct)) : ℚ) /
            (rs.length + 1 : ℚ) * 100
        averageScore := ((r :: rs).map (fun sr => sr.rawScore)).sum / (rs.length + 1 : ℚ)
        highestScore := (rs.map (fun sr => sr.rawScore)).foldl max r.rawScore
        lowestScore := (rs.map (fun sr => sr.rawScore)).foldl min r.rawScore
        passRate := ((r :: rs).countP (fun sr => decide (passThreshold ≤ sr.percentage)) : ℚ) /
          (rs.length + 1 : ℚ) * 100 }

/-- Modelled from the spec (§4.3): `aggregate(examId, passThreshold)` over
the live set of Active results for the exam. -/
def aggregate (s : Store) (e : String) (passThreshold : ℚ) : AggregateResult :=
  aggregateList e (activeResults s e) passThreshold

/-! ## Concrete sample data used by the witnesses -/

/-- A sample ScoreResult for witnesses: 2 questions, both correct, 10/10. -/
def resA : ScoreResult :=
  score ⟨"EX1", 2, 4, fun _ => 1, 10⟩ "R1" (fun _ => .answered 1)

/-- A second sample ScoreResult for witnesses: 2 questions, both blank. -/
def resB : ScoreResult :=
  score ⟨"EX1", 2, 4, fun _ => 1, 10⟩ "R1" (fun _ => .blank)

/-- The empty store. -/
def store0 : Store := ⟨[]⟩

/-- The store holding one Active record for ("EX1", "R1"). -/
def store1 : Store := ⟨[mkRecord "EX1" "R1" resA]⟩

/-- The store after resubmitting `resB` over `store1`: the new record is
Active, the superseded one is retained as Replaced. -/
def store2 : Store :=
  ⟨[mkRecord "EX1" "R1" resB, { mkRecord "EX1" "R1" resA with state := RecordState.replaced }]⟩

end OMR

namespace OMR

/-- C1 counterexample: at a per-question accuracy of exactly 75, the
difficulty classification in the code returns "Medium", not "Easy" as the
claim states. -/
theorem difficulty_at_75_not_easy :
    difficulty 75 = "Medium" ∧ difficulty 75 ≠ "Easy" := by
  have h : difficulty 75 = "Medium" := by
    unfold difficulty
    rw [if_neg (by norm_num), if_pos (by norm_num)]
  exact ⟨h, by rw [h]; decide⟩

/-- C1 (amended): the difficulty classification uses strict thresholds:
"Easy" when accuracy > 75, "Medium" when 50 < accuracy ≤ 75, "Hard" when
accuracy ≤ 50; in particular an accuracy of exactly 75 is "Medium". -/
theorem difficulty_classification (a : ℚ) :
    (a > 75 → difficulty a = "Easy") ∧
    (50 < a ∧ a ≤ 75 → difficulty a = "Medium") ∧
    (a ≤ 50 → difficulty a = "Hard") := by
  unfold difficulty
  refine ⟨fun h => ?_, fun h => ?_, fun h => ?_⟩
  · rw [if_pos h]
  · rw [if_neg (by linarith [h.2]), if_pos h.1]
  · rw [if_neg (by linarith), if_neg (by linarith)]

/-- C1 witness: accuracy 80 is classified "Easy", 75 is "Medium",
50 is "Hard". -/
theorem difficulty_classification_witness :
    difficulty 80 = "Easy" ∧ difficulty 75 = "Medium" ∧ difficulty 50 = "Hard" :=
  ⟨(difficulty_classification 80).1 (by norm_num),
   (difficulty_classification 75).2.1 (by norm_num),
   (difficulty_classification 50).2.2 (by norm_num)⟩

/-- C9 counterexample: at percentage 45 the result view labels FAIL
(threshold 50) while the teacher dashboard badge is a pass (threshold 40),
so the two surfaces do not share one classification function. -/
theorem pass_labels_disagree_at_45 :
    viewResultIsPass 45 = false ∧ teacherIsPass 45 = true ∧
    viewResultIsPass 45 ≠ teacherIsPass 45 := by
  have hv : viewResultIsPass 45 = false := by
    unfold viewResultIsPass viewResultOutcome
    rw [if_neg (by norm_num)]
    decide
  have ht : teacherIsPass 45 = true := by
    unfold teacherIsPass teacherBadge
    rw [if_neg (by norm_num), if_neg (by norm_num), if_pos (by norm_num)]
    decide
  exact ⟨hv, ht, by rw [hv, ht]; decide⟩

/-- C9 (amended): the result view passes exactly at percentage ≥ 50 and the
teacher dashboard passes exactly at percentage ≥ 40; the two pass/fail
labels agree precisely when the percentage is below 40 or at least 50, and
diverge on [40, 50). -/
theorem pass_label_divergence (p : ℚ) :
    (viewResultIsPass p = true ↔ 50 ≤ p) ∧
    (teacherIsPass p = true ↔ 40 ≤ p) ∧
    (viewResultIsPass p = teacherIsPass p ↔ (p < 40 ∨ 50 ≤ p)) := by
  have hv : viewResultIsPass p = true ↔ 50 ≤ p := by
    unfold viewResultIsPass viewResultOutcome
    split_ifs with h
    · simpa using h
    · simpa using h
  have ht : teacherIsPass p = true ↔ 40 ≤ p := by
    unfold teacherIsPass teacherBadge
    split_ifs with h1 h2 h3
    · simp
      linarith
    · simp
      linarith
    · simpa using h3
    · simpa using h3
  refine ⟨hv, ht, ?_, ?_⟩
  · intro h
    by_cases h40 : 40 ≤ p
    · exact Or.inr (hv.mp (h.trans (ht.mpr h40)))
    · exact Or.inl (by linarith)
  · rintro (h | h)
    · have hv' : viewResultIsPass p = false := by
        cases hb : viewResultIsPass p
        · rfl
        · exact absurd (hv.mp hb) (by linarith)
      have ht' : teacherIsPass p = false := by
        cases hb : teacherIsPass p
        · rfl
        · exact absurd (ht.mp hb) (by linarith)
      rw [hv', ht']
    · rw [hv.mpr h, ht.mpr (by linarith)]

/-- C10: the ViewExam answer-key display is driven by the fixed list
['A','B','C','D','E']: it is independent of the exam's configured
`number_of_choices`, every question row always shows exactly those five
bubbles, and a correct answer outside A-E (such as "F", "G" or "H" on a
6-8 choice exam) highlights no bubble. -/
theorem viewExam_fixed_five_choices (e₁ e₂ : ExamView)
    (hq : e₁.total_questions = e₂.total_questions)
    (hk : e₁.answer_key = e₂.answer_key) :
    answerKeyDisplay e₁ = answerKeyDisplay e₂ ∧
    (∀ row ∈ answerKeyDisplay e₁, row.map Prod.fst = viewExamChoices ∧ row.length = 5) ∧
    (∀ ans : String, ans ∉ viewExamChoices → ∀ b ∈ bubbleRow ans, b.2 = false) := by
  refine ⟨?_, ?_, ?_⟩
  · unfold answerKeyDisplay
    rw [hq, hk]
  · intro row hrow
    unfold answerKeyDisplay at hrow
    obtain ⟨i, _, rfl⟩ := List.mem_map.mp hrow
    constructor
    · unfold bubbleRow
      rw [List.map_map]
      rfl
    · unfold bubbleRow
      rw [List.length_map]
      rfl
  · intro ans hans b hb
    unfold bubbleRow at hb
    obtain ⟨c, hc, rfl⟩ := List.mem_map.mp hb
    show (ans == c) = false
    rw [beq_eq_false_iff_ne]
    rintro rfl
    exact hans hc

/-- C10 witness: a 6-choice exam whose question 1 has correct answer "F"
and a 2-choice exam render identical five-bubble rows, and the "F" row has
no highlighted bubble. -/
theorem viewExam_fixed_five_choices_witness :
    answerKeyDisplay ⟨1, 6, fun _ => "F"⟩ = answerKeyDisplay ⟨1, 2, fun _ => "F"⟩ ∧
    (∀ b ∈ bubbleRow "F", b.2 = false) :=
  ⟨(viewExam_fixed_five_choices ⟨1, 6, fun _ => "F"⟩ ⟨1, 2, fun _ => "F"⟩ rfl rfl).1,
   (viewExam_fixed_five_choices ⟨1, 6, fun _ => "F"⟩ ⟨1, 2, fun _ => "F"⟩ rfl rfl).2.2
     "F" (by decide)⟩

/-! ### ScoringEngine lemmas -/

/-- Each outcome tag is counted by exactly one of the three counters. -/
theorem countP_outcomes_sum (l : List Outcome) :
    l.countP (fun o => decide (o = .correct)) + l.countP (fun o => decide (o = .incorrect)) +
      l.countP (fun o => decide (o = .unanswered)) = l.length := by
  induction l with
  | nil => rfl
  | cons a l ih =>
    simp only [List.countP_cons, List.length_cons]
    cases a <;> simp <;> omega

/-- There is one outcome tag per question. -/
theorem scoreOutcomes_length (key : AnswerKey) (detected : Nat → DetectedEntry) :
    (scoreOutcomes key detected).length = key.totalQuestions := by
  unfold scoreOutcomes questionList
  rw [List.length_map, List.length_map, List.length_range]

/-- Rounding an integral value to two decimals leaves it unchanged. -/
theorem roundHalfUp2_natCast (m : ℕ) : roundHalfUp2 (m : ℚ) = m := by
  unfold roundHalfUp2
  have h : (m : ℚ) * 100 + 1 / 2 = ((m * 100 : ℤ) : ℚ) + 1 / 2 := by
    push_cast
    ring
  have hfloor : ⌊(1 : ℚ) / 2⌋ = 0 := by
    rw [Int.floor_eq_zero_iff]
    constructor <;> norm_num
  rw [h, Int.floor_int_add, hfloor]
  push_cast
  ring

/-- C7: for every ScoreResult produced by the ScoringEngine, the three
outcome counters sum to the number of questions:
correctCount + incorrectCount + unansweredCount = N. -/
theorem score_counts_sum (key : AnswerKey) (roll : String) (detected : Nat → DetectedEntry) :
    (score key roll detected).correctCount + (score key roll detected).incorrectCount +
      (score key roll detected).unansweredCount = key.totalQuestions := by
  show correctCountOf key detected + incorrectCountOf key detected +
    unansweredCountOf key detected = key.totalQuestions
  unfold correctCountOf incorrectCountOf unansweredCountOf
  rw [countP_outcomes_sum, scoreOutcomes_length]

/-- When every question is answered with the key's choice, every outcome is
correct. -/
theorem correctCount_of_all_correct (key : AnswerKey) (detected : Nat → DetectedEntry)
    (hall : ∀ q ∈ questionList key, detected q = .answered (key.mapping q)) :
    correctCountOf key detected = key.totalQuestions := by
  unfold correctCountOf
  rw [← scoreOutcomes_length key detected, List.countP_eq_length]
  intro o ho
  obtain ⟨q, hq, rfl⟩ := List.mem_map.mp ho
  unfold outcomeAt
  rw [hall q hq]
  simp

/-- C3: the ScoringEngine computes `perQuestionMarks = maxMarks / N`,
`rawScore = roundHalfUp2 (correctCount * perQuestionMarks)` and
`percentage = rawScore / maxMarks * 100`; consequently, when every question
is answered correctly, `rawScore = maxMarks` and `percentage = 100`. -/
theorem score_all_correct (key : AnswerKey) (roll : String) (detected : Nat → DetectedEntry)
    (hN : 1 ≤ key.totalQuestions) (hM : 1 ≤ key.maxMarks)
    (hall : ∀ q ∈ questionList key, detected q = .answered (key.mapping q)) :
    (score key roll detected).rawScore =
      roundHalfUp2 ((score key roll detected).correctCount * perQuestionMarks key) ∧
    (score key roll detected).percentage =
      (score key roll detected).rawScore / (key.maxMarks : ℚ) * 100 ∧
    (score key roll detected).rawScore = (key.maxMarks : ℚ) ∧
    (score key roll detected).percentage = 100 := by
  have hN0 : (key.totalQuestions : ℚ) ≠ 0 := by
    have : key.totalQuestions ≠ 0 := by omega
    exact_mod_cast this
  have hM0 : (key.maxMarks : ℚ) ≠ 0 := by
    have : key.maxMarks ≠ 0 := by omega
    exact_mod_cast this
  have hraw : rawScoreOf key detected = (key.maxMarks : ℚ) := by
    unfold rawScoreOf perQuestionMarks
    rw [correctCount_of_all_correct key detected hall]
    rw [show (key.totalQuestions : ℚ) * ((key.maxMarks : ℚ) / (key.totalQuestions : ℚ)) =
      (key.maxMarks : ℚ) from by field_simp]
    exact roundHalfUp2_natCast key.maxMarks
  refine ⟨rfl, rfl, hraw, ?_⟩
  show percentageOf key detected = 100
  unfold percentageOf
  rw [hraw, div_self hM0]
  norm_num

/-- C3 witness: a 2-question exam with max marks 10 and every question
answered correctly yields raw score 10 and percentage 100. -/
theorem score_all_correct_witness :
    (score ⟨"EX1", 2, 4, fun _ => 1, 10⟩ "R1" (fun _ => .answered 1)).rawScore =
      ((10 : Nat) : ℚ) ∧
    (score ⟨"EX1", 2, 4, fun _ => 1, 10⟩ "R1" (fun _ => .answered 1)).percentage = 100 :=
  ⟨(score_all_correct ⟨"EX1", 2, 4, fun _ => 1, 10⟩ "R1" (fun _ => .answered 1)
      (by decide) (by decide) (fun q _ => rfl)).2.2.1,
   (score_all_correct ⟨"EX1", 2, 4, fun _ => 1, 10⟩ "R1" (fun _ => .answered 1)
      (by decide) (by decide) (fun q _ => rfl)).2.2.2⟩

/-! ### SubmissionStore lemmas -/

/-- A freshly created record is the Active record for its own key. -/
theorem isActiveFor_mkRecord (e r : String) (res : ScoreResult) :
    isActiveFor e r (mkRecord e r res) = true := by
  simp [isActiveFor, mkRecord]

/-- A freshly created record is not Active for a different key. -/
theorem isActiveFor_mkRecord_of_ne (e r e₂ r₂ : String) (res : ScoreResult)
    (h : ¬(e = e₂ ∧ r = r₂)) : isActiveFor e₂ r₂ (mkRecord e r res) = false := by
  simp only [isActiveFor, mkRecord, decide_eq_false_iff_not]
  rintro ⟨h1, h2, -⟩
  exact h ⟨h1, h2⟩

/-- Retiring the key's Active records leaves no record Active for the key. -/
theorem isActiveFor_retire_self (st : RecordState) (hst : st ≠ .active) (e r : String)
    (rec : SubRecord) : isActiveFor e r (retire st e r rec) = false := by
  unfold retire
  split_ifs with h
  · simp only [isActiveFor, decide_eq_false_iff_not]
    rintro ⟨-, -, h3⟩
    exact hst h3
  · simpa using h

/-- Retiring the Active records of one key does not change which records
are Active for a different key. -/
theorem isActiveFor_retire_of_ne (st : RecordState) (e r e₂ r₂ : String)
    (h : ¬(e₂ = e ∧ r₂ = r)) (rec : SubRecord) :
    isActiveFor e₂ r₂ (retire st e r rec) = isActiveFor e₂ r₂ rec := by
  unfold retire
  split_ifs with hrec
  · have h1 : rec.examId = e ∧ rec.rollNumber = r ∧ rec.state = RecordState.active := by
      simpa [isActiveFor] using hrec
    have hkey : ¬(rec.examId = e₂ ∧ rec.rollNumber = r₂) := by
      rintro ⟨hx, hy⟩
      exact h ⟨hx.symm.trans h1.1, hy.symm.trans h1.2.1⟩
    simp only [isActiveFor]
    rw [decide_eq_decide]
    constructor <;> rintro ⟨hx, hy, -⟩ <;> exact absurd ⟨hx, hy⟩ hkey
  · rfl

/-- After retiring a key's Active records, the key has zero Active records. -/
theorem countP_map_retire_self (st : RecordState) (hst : st ≠ .active) (e r : String)
    (l : List SubRecord) : (l.map (retire st e r)).countP (isActiveFor e r) = 0 := by
  rw [List.countP_eq_zero]
  intro x hx
  obtain ⟨y, _, rfl⟩ := List.mem_map.mp hx
  simp [isActiveFor_retire_self st hst e r y]

/-- Retiring one key's Active records preserves every other key's Active
count. -/
theorem countP_map_retire_of_ne (st : RecordState) (e r e₂ r₂ : String)
    (h : ¬(e₂ = e ∧ r₂ = r)) (l : List SubRecord) :
    (l.map (retire st e r)).countP (isActiveFor e₂ r₂) = l.countP (isActiveFor e₂ r₂) := by
  rw [List.countP_map]
  apply List.countP_congr
  intro x _
  rw [Function.comp_apply, isActiveFor_retire_of_ne st e r e₂ r₂ h x]

/-- When `getActive` finds nothing, the key has zero Active records. -/
theorem countActive_eq_zero_of_getActive_none (s : Store) (e r : String)
    (h : getActive s e r = none) : countActive s e r = 0 := by
  unfold countActive
  rw [List.countP_eq_zero]
  exact List.find?_eq_none.mp h

/-- C2: every store reachable from the empty store by create/delete
transitions has at most one Active record per (examId, rollNumber); all
operations preserve the invariant. -/
theorem store_at_most_one_active (s : Store) (h : Reachable s) (e r : String) :
    countActive s e r ≤ 1 := by
  induction h with
  | empty => simp [countActive]
  | step_create s s' e₁ r₁ res allow hs hok ih =>
    unfold create at hok
    split at hok
    · rename_i heq
      injection hok with hok
      subst hok
      unfold countActive
      simp only [List.countP_cons]
      by_cases hkey : e₁ = e ∧ r₁ = r
      · obtain ⟨rfl, rfl⟩ := hkey
        have h0 : countActive s e₁ r₁ = 0 :=
          countActive_eq_zero_of_getActive_none s e₁ r₁ heq
        unfold countActive at h0
        rw [h0, isActiveFor_mkRecord]
        simp
      · rw [isActiveFor_mkRecord_of_ne e₁ r₁ e r res hkey]
        have := ih
        unfold countActive at this
        simpa using this
    · rename_i rec heq
      split at hok
      · injection hok with hok
        subst hok
        unfold countActive
        simp only [List.countP_cons]
        by_cases hkey : e₁ = e ∧ r₁ = r
        · obtain ⟨rfl, rfl⟩ := hkey
          rw [countP_map_retire_self .replaced (by decide) e₁ r₁ s.records,
            isActiveFor_mkRecord]
          simp
        · have hkey' : ¬(e = e₁ ∧ r = r₁) := fun ⟨a, b⟩ => hkey ⟨a.symm, b.symm⟩
          rw [isActiveFor_mkRecord_of_ne e₁ r₁ e r res hkey,
            countP_map_retire_of_ne .replaced e₁ r₁ e r hkey' s.records]
          have := ih
          unfold countActive at this
          simpa using this
      · simp at hok
  | step_delete s s' e₁ r₁ hs hok ih =>
    unfold deleteSubmission at hok
    split at hok
    · simp at hok
    · injection hok with hok
      subst hok
      unfold countActive
      by_cases hkey : e₁ = e ∧ r₁ = r
      · obtain ⟨rfl, rfl⟩ := hkey
        rw [countP_map_retire_self .deleted (by decide) e₁ r₁ s.records]
        omega
      · have hkey' : ¬(e = e₁ ∧ r = r₁) := fun ⟨a, b⟩ => hkey ⟨a.symm, b.symm⟩
        rw [countP_map_retire_of_ne .deleted e₁ r₁ e r hkey' s.records]
        exact ih

/-- C2 witness: the store reached by one successful create has at most one
Active record for its key. -/
theorem store_at_most_one_active_witness : countActive store1 "EX1" "R1" ≤ 1 :=
  store_at_most_one_active store1
    (Reachable.step_create store0 store1 "EX1" "R1" resA false Reachable.empty rfl)
    "EX1" "R1"

/-- C4: when an Active record exists for the key, create with
allowResubmission = false fails with ConflictError, the store is left
unchanged, and getActive still returns the existing record intact. -/
theorem create_conflict_preserves_active (s : Store) (e r : String) (rec : SubRecord)
    (res : ScoreResult) (h : getActive s e r = some rec) :
    applyCreate s e r res false = (s, some StoreError.conflict) ∧
    getActive (applyCreate s e r res false).1 e r = some rec := by
  have hc : create s e r res false = .error .conflict := by
    unfold create
    rw [h]
    rfl
  refine ⟨?_, ?_⟩
  · unfold applyCreate
    rw [hc]
  · unfold applyCreate
    rw [hc]
    exact h

/-- C4 witness: a second create with resubmission disabled on the same key
returns ConflictError and getActive still returns the first record. -/
theorem create_conflict_witness :
    applyCreate store1 "EX1" "R1" resB false = (store1, some StoreError.conflict) ∧
    getActive (applyCreate store1 "EX1" "R1" resB false).1 "EX1" "R1" =
      some (mkRecord "EX1" "R1" resA) :=
  create_conflict_preserves_active store1 "EX1" "R1" (mkRecord "EX1" "R1" resA) resB rfl

/-- C5: when an Active record exists for the key, create with
allowResubmission = true succeeds, getActive afterwards returns the new
record, the old record is retained in the key's history as Replaced, and
the new record is the only Active record for the key. -/
theorem create_resubmission (s : Store) (e r : String) (rec : SubRecord) (res : ScoreResult)
    (h : getActive s e r = some rec) :
    create s e r res true = .ok ⟨mkRecord e r res :: s.records.map (retire .replaced e r)⟩ ∧
    getActive ⟨mkRecord e r res :: s.records.map (retire .replaced e r)⟩ e r =
      some (mkRecord e r res) ∧
    { rec with state := RecordState.replaced } ∈
      historyFor ⟨mkRecord e r res :: s.records.map (retire .replaced e r)⟩ e r ∧
    ∀ rec' ∈ (mkRecord e r res :: s.records.map (retire .replaced e r) : List SubRecord),
      isActiveFor e r rec' = true → rec' = mkRecord e r res := by
  have hact : isActiveFor e r rec = true := List.find?_some h
  have hmem : rec ∈ s.records := List.mem_of_find?_eq_some h
  have hprops : rec.examId = e ∧ rec.rollNumber = r ∧ rec.state = RecordState.active := by
    simpa [isActiveFor] using hact
  refine ⟨?_, ?_, ?_, ?_⟩
  · unfold create
    rw [h]
    rfl
  · exact List.find?_cons_of_pos _ (isActiveFor_mkRecord e r res)
  · unfold historyFor
    rw [List.mem_filter]
    constructor
    · apply List.mem_cons_of_mem
      have hretire : retire .replaced e r rec = { rec with state := RecordState.replaced } := by
        unfold retire
        rw [if_pos hact]
      exact hretire ▸ List.mem_map_of_mem (retire .replaced e r) hmem
    · simp [hprops.1, hprops.2.1]
  · intro rec' hmem' hact'
    rcases List.mem_cons.mp hmem' with h1 | h1
    · exact h1
    · exfalso
      obtain ⟨y, -, rfl⟩ := List.mem_map.mp h1
      rw [isActiveFor_retire_self .replaced (by decide) e r y] at hact'
      exact Bool.false_ne_true hact'

/-- C5 witness: resubmitting over the one-record store succeeds, getActive
returns the new record, and the first record is in history as Replaced. -/
theorem create_resubmission_witness :
    create store1 "EX1" "R1" resB true = .ok store2 ∧
    getActive store2 "EX1" "R1" = some (mkRecord "EX1" "R1" resB) ∧
    { mkRecord "EX1" "R1" resA with state := RecordState.replaced } ∈
      historyFor store2 "EX1" "R1" := by
  obtain ⟨h1, h2, h3, -⟩ :=
    create_resubmission store1 "EX1" "R1" (mkRecord "EX1" "R1" resA) resB rfl
  exact ⟨h1, h2, h3⟩

/-- C8: delete transitions the key's Active record to Deleted when one
exists (afterwards getActive finds none), and when no Active record exists
it reports NotFoundError and leaves the store unchanged. -/
theorem delete_active_or_notFound (s : Store) (e r : String) :
    (∀ rec, getActive s e r = some rec →
      deleteSubmission s e r = .ok ⟨s.records.map (retire .deleted e r)⟩ ∧
      { rec with state := RecordState.deleted } ∈
        (⟨s.records.map (retire .deleted e r)⟩ : Store).records ∧
      getActive ⟨s.records.map (retire .deleted e r)⟩ e r = none) ∧
    (getActive s e r = none → applyDelete s e r = (s, some StoreError.notFound)) := by
  constructor
  · intro rec h
    have hact : isActiveFor e r rec = true := List.find?_some h
    have hmem : rec ∈ s.records := List.mem_of_find?_eq_some h
    refine ⟨?_, ?_, ?_⟩
    · unfold deleteSubmission
      rw [h]
    · have hretire : retire .deleted e r rec = { rec with state := RecordState.deleted } := by
        unfold retire
        rw [if_pos hact]
      exact hretire ▸ List.mem_map_of_mem (retire .deleted e r) hmem
    · unfold getActive
      rw [List.find?_eq_none]
      intro x hx
      obtain ⟨y, -, rfl⟩ := List.mem_map.mp hx
      simp [isActiveFor_retire_self .deleted (by decide) e r y]
  · intro h
    have hd : deleteSubmission s e r = .error .notFound := by
      unfold deleteSubmission
      rw [h]
    unfold applyDelete
    rw [hd]

/-- C8 witness: deleting the one Active record succeeds and leaves no
Active record; deleting from the empty store reports NotFoundError and
leaves the store unchanged. -/
theorem delete_witness :
    deleteSubmission store1 "EX1" "R1" =
      .ok ⟨store1.records.map (retire .deleted "EX1" "R1")⟩ ∧
    getActive ⟨store1.records.map (retire .deleted "EX1" "R1")⟩ "EX1" "R1" = none ∧
    applyDelete store0 "EX1" "R1" = (store0, some StoreError.notFound) := by
  obtain ⟨h1, -, h3⟩ :=
    (delete_active_or_notFound store1 "EX1" "R1").1 (mkRecord "EX1" "R1" resA) rfl
  exact ⟨h1, h3, (delete_active_or_notFound store0 "EX1" "R1").2 rfl⟩

/-- C6: when an exam has no Active submissions, aggregate returns the
distinguished NoSubmissions result — never an ExamStatistics value and
never an error (it forms no division at all on this path). -/
theorem aggregate_empty_noSubmissions (s : Store) (e : String) (t : ℚ)
    (h : activeResults s e = []) :
    aggregate s e t = .noSubmissions ∧ ∀ st, aggregate s e t ≠ .stats st := by
  have h1 : aggregate s e t = .noSubmissions := by
    unfold aggregate
    rw [h]
    rfl
  refine ⟨h1, fun st hst => ?_⟩
  rw [h1] at hst
  exact AggregateResult.noConfusion hst

/-- C6 witness: the empty store has no Active submissions for any exam and
aggregate returns NoSubmissions. -/
theorem aggregate_empty_witness : aggregate store0 "EX1" 40 = .noSubmissions :=
  (aggregate_empty_noSubmissions store0 "EX1" 40 rfl).1

end OMR
